import Mathlib

/-!
Verification of the fused-matmul kernel selection, validation, and dispatch
engine of `crates/burn-cubecl-fusion/src/matmul/optimization.rs`.

The Rust source is shallowly embedded: pure control flow becomes Lean
functions, external collaborators (the trace-execution framework, the cubecl
`matrix_batch_layout` classifier, `select_kernel_virtual`, the compute client)
become explicit environment records, and panics become an explicit
`PanicOr` outcome.  To make claims of the form "no kernel dispatch is
attempted" / "no problem is built" observable, the embedded functions also
return the ordered list of externally visible steps they perform (problem
construction, plane-width query, kernel dispatch), placed exactly where the
source performs them.
-/

set_option autoImplicit false

namespace BurnMatmulFusion

/-- Outcome of Rust code that can `panic!`: either a normal value or a panic
carrying the panic message. -/
inductive PanicOr (α : Type) where
  | panic (msg : String)
  | ok (val : α)
deriving DecidableEq

/-- Modelled from the spec: the numeric precision tags carried by operand
references (`FusePrecision`, defined in `shared/ir.rs`, which is not among the
provided sources).  §4.4 names the four supported floating tags; the remaining
tags are the integer/boolean precisions that fall into the fatal default arm. -/
inductive FusePrecision where
  | F32 | Flex32 | F16 | BF16
  | I64 | I32 | I16 | I8
  | U64 | U32 | U16 | U8
  | Bool
deriving DecidableEq

/-- Modelled from the spec: an operand reference (`Arg`, defined in
`shared/ir.rs`, not among the provided sources) — "an opaque handle identifying
an input or output tensor slot within a captured trace, carrying its numeric
precision tag" (§3).  `Scalar` stands for the remaining non-input, non-output
argument kinds, which fall into the `panic!("Invalid ref layout")` arm of the
output line-size resolution. -/
inductive Arg where
  | Input (pos : Nat) (prec : FusePrecision)
  | Output (pos : Nat) (prec : FusePrecision)
  | Scalar (pos : Nat) (prec : FusePrecision)
deriving DecidableEq

/-- The precision tag carried by an operand reference (`Arg::precision`). -/
def Arg.precision : Arg → FusePrecision
  | .Input _ p => p
  | .Output _ p => p
  | .Scalar _ p => p

/-- Modelled from the spec: the reference layout of a fuse block config
(`RefLayout` in `shared/ir.rs`, not among the provided sources): either a
concrete operand reference or a virtual layout. -/
inductive RefLayout where
  | Concrete (arg : Arg)
  | Virtual (id : Nat)
deriving DecidableEq

/-- Modelled from the spec: the per-block configuration (`FuseBlockConfig` in
`shared/ir.rs`); only its `ref_layout` field is read by this engine. -/
structure FuseBlockConfig where
  ref_layout : RefLayout
deriving DecidableEq

/-- The layout classification returned by cubecl's `matrix_batch_layout`
(external collaborator). -/
inductive MatrixBatchLayout where
  | Contiguous
  | MildlyPermuted (transposed : Bool) (batch_swap : Bool)
  | HighlyPermuted
deriving DecidableEq

/-- cubecl's `components::MatrixLayout`. -/
inductive MatrixLayout where
  | RowMajor
  | ColMajor
deriving DecidableEq

/-- cubecl's `MatmulProblem` value as constructed by `matmul_fused`:
dimensions, per-operand batch shapes, layouts and line sizes.
`usize` dimensions are modelled as `Nat`; the `as u32` casts of the source
appear as explicit `% 2 ^ 32`. -/
structure MatmulProblem where
  m : Nat
  n : Nat
  k : Nat
  batches : List Nat × List Nat
  lhs_layout : MatrixLayout
  rhs_layout : MatrixLayout
  lhs_line_size : Nat
  rhs_line_size : Nat
  out_line_size : Nat
deriving DecidableEq

/-- cubecl's `MatmulAvailabilityError`; only `PlaneDimUnknown` is produced by
this file, other availability errors are abstracted by `Other`. -/
inductive MatmulAvailabilityError where
  | PlaneDimUnknown
  | Other (id : Nat)
deriving DecidableEq

/-- cubecl's `MatmulLaunchError`; `Unavailable` is the variant produced by this
file, other launch failures are abstracted by `Other`. -/
inductive MatmulLaunchError where
  | Unavailable (err : MatmulAvailabilityError)
  | Other (id : Nat)
deriving DecidableEq

/-- `FusedMatmulError`: either a wrapped kernel launch error or invalid
input. -/
inductive FusedMatmulError where
  | LaunchError (err : MatmulLaunchError)
  | InvalidInput
deriving DecidableEq

/-- `FusedMatmulSelector`: the strategy tag, default `Simple`. -/
inductive FusedMatmulSelector where
  | Simple
  | DoubleBuffering
deriving DecidableEq

instance : Inhabited FusedMatmulSelector := ⟨.Simple⟩

/-- Modelled from the spec: the binary matmul operation descriptor
(`BinaryOpIr` of `burn_ir`, not among the provided sources); opaque to this
engine. -/
structure BinaryOpIr where
  id : Nat
deriving DecidableEq

/-- The `FusedMatmul` kernel-runner unit: operand references, the matmul op
descriptor and the strategy selector. -/
structure FusedMatmul where
  lhs : Arg
  rhs : Arg
  out : Arg
  op : BinaryOpIr
  selector : FusedMatmulSelector
deriving DecidableEq

/-- The numeric element precision `EG` chosen by the precision dispatch of
`TraceRunner::run` (`f32`, `flex32`, `f16`, `bf16`). -/
inductive ElemPrec where
  | f32 | flex32 | f16 | bf16
deriving DecidableEq

/-- Modelled from the spec: whether `EG::ES` (the stage element of cubecl's
`MatmulPrecision`, an external type-level fact) is exactly `f32`.  Only the
`f32` precision has `f32` as its stage element; `flex32`, `f16` and `bf16`
are distinct types, so their `TypeId` comparison with `f32` is false. -/
def ElemPrec.esIsF32 : ElemPrec → Bool
  | .f32 => true
  | _ => false

/-- The precision specialization handed to `select_kernel_virtual`: either the
exact declared element precision, or the mixed `(f32, tf32, f32, f32)` spec
(input `f32`, stage `tf32`, accumulate `f32`, output `f32`) of the
tensor-core upgrade. -/
inductive KernelPrecision where
  | exact (eg : ElemPrec)
  | f32_tf32_f32_f32
deriving DecidableEq

/-- The input/output element type of a kernel precision specialization:
the mixed tf32 spec keeps `f32` input/output elements. -/
def KernelPrecision.ioElem : KernelPrecision → ElemPrec
  | .exact eg => eg
  | .f32_tf32_f32_f32 => .f32

/-- The concrete algorithm type the selector maps to:
`SimpleAlgorithm<AcceleratedMatmul>` or
`CyclicDoubleBufferingAlgorithm<AcceleratedMatmul>`. -/
inductive AlgKind where
  | SimpleAccelerated
  | CyclicDoubleBufferingAccelerated
deriving DecidableEq

/-- The shape/stride/line-size views that a `GlobalArgsLaunch` offers over its
operand references (external trace-framework data, read-only here). -/
structure GlobalArgs where
  shape : Arg → List Nat
  strides : Arg → List Nat
  line_size : Arg → Nat

/-- The compute-client facts queried by this engine: the device's
`defined_plane_size` and whether `tf32` acceleration is supported. -/
structure Client where
  defined_plane_size : Option Nat
  tf32_supported : Bool
deriving DecidableEq

/-- The external cubecl collaborators of the kernel runner:
the stride classifier `matrix_batch_layout`, the static
`requires_tensor_cores` capability of the `AcceleratedMatmul` tile family
(shared by both selected algorithms), and `select_kernel_virtual`
(the client and the fused input/output bindings are elided from its
signature, since they do not affect the control flow embedded here). -/
structure LaunchEnv where
  matrix_batch_layout : List Nat → MatrixBatchLayout
  accelerated_requires_tensor_cores : Bool
  select_kernel : KernelPrecision → AlgKind → MatmulProblem → Nat →
    Except MatmulLaunchError Unit

/-- The externally visible steps `matmul_fused` performs after validation, in
order: problem construction, plane-width query, kernel dispatch. -/
inductive Event where
  | problemBuilt (problem : MatmulProblem)
  | planeQueried
  | dispatched (alg : AlgKind) (eg : ElemPrec) (problem : MatmulProblem)
      (plane_size : Nat)
deriving DecidableEq

/-- The closure `check_layout` of `matmul_fused`, applied to the
classification of one operand's strides: returns
`(make_contiguous, transposed)`. -/
def check_layout : MatrixBatchLayout → Bool × Bool
  | .Contiguous => (false, false)
  | .MildlyPermuted transposed _ => (false, transposed)
  | .HighlyPermuted => (true, false)

/-- Whether a layout classification is `MildlyPermuted` with
`transposed = true`: the exact condition under which an operand's matmul
layout becomes `ColMajor`. -/
def MatrixBatchLayout.transposedFlag : MatrixBatchLayout → Bool
  | .MildlyPermuted transposed _ => transposed
  | _ => false

/-- Resolution of the output line size from `config.ref_layout`
(the `out_line_size` match of `matmul_fused`): a concrete input reference
reads the input bindings, a concrete output reference reads the output
bindings, any other concrete reference is a panic, a virtual layout is 1. -/
def resolve_out_line_size (inputs outputs : GlobalArgs) :
    RefLayout → PanicOr Nat
  | .Concrete arg =>
    match arg with
    | .Input _ _ => .ok (inputs.line_size arg)
    | .Output _ _ => .ok (outputs.line_size arg)
    | _ => .panic "Invalid ref layout"
  | .Virtual _ => .ok 1

/-- `matmul_launch_kernel`: if the algorithm's tile family requires tensor
cores, the stage element of `EG` is `f32`, and the client supports `tf32`,
dispatch with the mixed `(f32, tf32, f32, f32)` spec; otherwise dispatch with
the exact declared precision.  `requires_tensor_cores` is the static
capability of the generic algorithm's tile family. -/
def matmul_launch_kernel (requires_tensor_cores : Bool) (eg : ElemPrec)
    (alg : AlgKind) (client : Client) (env : LaunchEnv)
    (problem : MatmulProblem) (plane_size : Nat) :
    Except MatmulLaunchError Unit :=
  if requires_tensor_cores && eg.esIsF32 && client.tf32_supported then
    env.select_kernel .f32_tf32_f32_f32 alg problem plane_size
  else
    env.select_kernel (.exact eg) alg problem plane_size

/-- `FusedMatmul::matmul_fused`: classify both operand layouts (rejecting any
layout that would need a copy), read the matrix dimensions, resolve line
sizes (rejecting a unit output line combined with wider input lines), build
the `MatmulProblem`, query the plane width, and dispatch the kernel selected
by the strategy tag.  Out-of-bounds shape indexing (`rank < 2`, or an `rhs`
shape shorter than the `lhs` rank) panics, as in Rust. -/
def FusedMatmul.matmul_fused (fm : FusedMatmul) (eg : ElemPrec)
    (client : Client) (inputs outputs : GlobalArgs) (config : FuseBlockConfig)
    (env : LaunchEnv) : List Event × PanicOr (Except FusedMatmulError Unit) :=
  let lhs_shape := inputs.shape fm.lhs
  let rhs_shape := inputs.shape fm.rhs
  let lhs_strides := inputs.strides fm.lhs
  let rhs_strides := inputs.strides fm.rhs
  let lhs_check := check_layout (env.matrix_batch_layout lhs_strides)
  let rhs_check := check_layout (env.matrix_batch_layout rhs_strides)
  if lhs_check.1 || rhs_check.1 then
    ([], .ok (.error .InvalidInput))
  else
    let rank := lhs_shape.length
    if rank < 2 then
      ([], .panic "index out of bounds")
    else if rhs_shape.length < rank then
      ([], .panic "index out of bounds")
    else
      let m := lhs_shape.getD (rank - 2) 0 % 2 ^ 32
      let k := lhs_shape.getD (rank - 1) 0 % 2 ^ 32
      let n := rhs_shape.getD (rank - 1) 0 % 2 ^ 32
      let lhs_line_size := inputs.line_size fm.lhs
      let rhs_line_size := inputs.line_size fm.rhs
      match resolve_out_line_size inputs outputs config.ref_layout with
      | .panic msg => ([], .panic msg)
      | .ok out_line_size =>
        if out_line_size = 1 ∧ (1 < lhs_line_size ∨ 1 < rhs_line_size) then
          ([], .ok (.error .InvalidInput))
        else
          let problem : MatmulProblem :=
            { m := m
              n := n
              k := k
              batches := (lhs_shape.take (lhs_shape.length - 2),
                rhs_shape.take (rhs_shape.length - 2))
              lhs_layout := if lhs_check.2 then .ColMajor else .RowMajor
              rhs_layout := if rhs_check.2 then .ColMajor else .RowMajor
              lhs_line_size := lhs_line_size
              rhs_line_size := rhs_line_size
              out_line_size := out_line_size }
          match client.defined_plane_size with
          | none =>
            ([.problemBuilt problem, .planeQueried],
              .ok (.error (.LaunchError (.Unavailable .PlaneDimUnknown))))
          | some plane_size =>
            let alg := match fm.selector with
              | .Simple => AlgKind.SimpleAccelerated
              | .DoubleBuffering => AlgKind.CyclicDoubleBufferingAccelerated
            let res := matmul_launch_kernel
              env.accelerated_requires_tensor_cores eg alg client env
              problem plane_size
            ([.problemBuilt problem, .planeQueried,
                .dispatched alg eg problem plane_size],
              .ok (match res with
                | .ok _ => .ok ()
                | .error err => .error (.LaunchError err)))

/-- The element precision selected for each supported output precision tag by
`TraceRunner::run`, `none` for tags that hit the fatal arm. -/
def precision_eg : FusePrecision → Option ElemPrec
  | .F32 => some .f32
  | .Flex32 => some .flex32
  | .F16 => some .f16
  | .BF16 => some .bf16
  | _ => none

/-- `TraceRunner::run` for `FusedMatmul`: branch on the output operand's
precision tag; the four supported tags call `matmul_fused` at the matching
element precision with `configs[0]` (panicking when the config slice is
empty); every other tag panics with "Unsupported precision". -/
def FusedMatmul.run (fm : FusedMatmul) (client : Client)
    (inputs outputs : GlobalArgs) (configs : List FuseBlockConfig)
    (env : LaunchEnv) : List Event × PanicOr (Except FusedMatmulError Unit) :=
  match precision_eg fm.out.precision with
  | some eg =>
    match configs with
    | [] => ([], .panic "index out of bounds")
    | config :: _ => fm.matmul_fused eg client inputs outputs config env
  | none => ([], .panic "Unsupported precision")

/-- Modelled from the spec: a device handle (`R::Device`), an opaque
runtime-only binding. -/
structure Device where
  id : Nat
deriving DecidableEq

/-- Modelled from the spec: a captured operation trace (`FuseTrace` of
`shared/trace.rs`, not among the provided sources); opaque to this engine,
only cloned and handed to the trace-execution framework. -/
structure FuseTrace where
  id : Nat
deriving DecidableEq

/-- Modelled from the spec: the externally supplied fallback operation
(`Box<dyn FallbackOperation<R>>`), an opaque callable. -/
structure FallbackOp where
  id : Nat
deriving DecidableEq

/-- Modelled from the spec: the trace framework's `TraceError<E>`: either the
runner's own error or a framework-side failure. -/
inductive TraceError (E : Type) where
  | Runner (err : E)
  | Other (id : Nat)
deriving DecidableEq

/-- Modelled from the spec: the tune output record (`TuneOutput` of
`shared/trace.rs`).  The `autotune-checks` feature is disabled in this model,
so the record is `UnChecked`, and `merge` is kept symbolic via `Merged`. -/
inductive TuneOutput where
  | UnChecked
  | Merged (a b : TuneOutput)
deriving DecidableEq

/-- `TuneOutput::merge`, kept symbolic. -/
def TuneOutput.merge (a b : TuneOutput) : TuneOutput := .Merged a b

/-- `MatmulOptimization<R>`: both traces, the client/device binding, the
fused-op count, the two selector variants of the unit, and the call-scoped
fallback operation. -/
structure MatmulOptimization where
  trace : FuseTrace
  trace_fallback : FuseTrace
  client : Client
  device : Device
  len : Nat
  matmul_simple : FusedMatmul
  matmul_double_buffering : FusedMatmul
  fallback : Option FallbackOp
deriving DecidableEq

/-- `MatmulOptimizationState`: the serializable snapshot, i.e. the coordinator
minus its runtime-only fields (client, device, fallback operation). -/
structure MatmulOptimizationState where
  trace : FuseTrace
  trace_fallback : FuseTrace
  matmul_simple : FusedMatmul
  matmul_double_buffering : FusedMatmul
  len : Nat
deriving DecidableEq

/-- `MatmulOptimization::new`: clone the unit into the two selector variants
and start with no fallback operation. -/
def MatmulOptimization.new (trace trace_fallback : FuseTrace) (client : Client)
    (device : Device) (len : Nat) (matmul : FusedMatmul) :
    MatmulOptimization :=
  { trace := trace
    trace_fallback := trace_fallback
    client := client
    device := device
    len := len
    matmul_simple := { matmul with selector := .Simple }
    matmul_double_buffering := { matmul with selector := .DoubleBuffering }
    fallback := none }

/-- `MatmulOptimization::num_ops_fused`. -/
def MatmulOptimization.num_ops_fused (opt : MatmulOptimization) : Nat :=
  opt.len

/-- `MatmulOptimization::from_state`: rebuild the coordinator from a snapshot,
rebinding the client from the given device handle (`R::client(device)` is the
runtime's client lookup, passed as `clientOf`), with no fallback operation. -/
def MatmulOptimization.from_state (clientOf : Device → Client)
    (device : Device) (state : MatmulOptimizationState) : MatmulOptimization :=
  { trace := state.trace
    trace_fallback := state.trace_fallback
    len := state.len
    client := clientOf device
    device := device
    matmul_simple := state.matmul_simple
    matmul_double_buffering := state.matmul_double_buffering
    fallback := none }

/-- `MatmulOptimization::to_state`: snapshot the serializable fields. -/
def MatmulOptimization.to_state (opt : MatmulOptimization) :
    MatmulOptimizationState :=
  { trace := opt.trace
    trace_fallback := opt.trace_fallback
    matmul_simple := opt.matmul_simple
    matmul_double_buffering := opt.matmul_double_buffering
    len := opt.len }

/-- The external collaborators of the coordinator: the trace-execution
framework run over a trace with a `FusedMatmul` runner
(`trace.run::<R, BT, FusedMatmul>`; client, device and context elided),
the same framework run with the `ElemwiseRunner`, and the caller-supplied
fallback-operation factory (`fallback(index)`). -/
structure ExecEnv where
  trace_run : FuseTrace → FusedMatmul →
    Except (TraceError FusedMatmulError) TuneOutput
  elemwise_run : FuseTrace → Except (TraceError Unit) TuneOutput
  fallback_of : Nat → FallbackOp

/-- The externally visible steps of a coordinator call, in order: capturing
the fallback operation at an index, attempting the fused trace with the
`Simple` unit, running the fallback operation, and running the fallback trace
through the elementwise runner. -/
inductive CoordEvent where
  | capturedFallback (idx : Nat)
  | ranFusedSimple
  | ranFallbackOp
  | ranFallbackTrace
deriving DecidableEq

/-- `MatmulOptimization::execute_simple_fused`: run the fused trace with the
`Simple` unit variant. -/
def MatmulOptimization.execute_simple_fused (opt : MatmulOptimization)
    (env : ExecEnv) : Except (TraceError FusedMatmulError) TuneOutput :=
  env.trace_run opt.trace opt.matmul_simple

/-- `MatmulOptimization::execute_double_buffering_fused`: run the fused trace
with the `DoubleBuffering` unit variant. -/
def MatmulOptimization.execute_double_buffering_fused
    (opt : MatmulOptimization) (env : ExecEnv) :
    Except (TraceError FusedMatmulError) TuneOutput :=
  env.trace_run opt.trace opt.matmul_double_buffering

/-- Modelled from the spec: `execute_standard_fused` is called by the
non-autotune branch of `execute` but is not defined in the provided sources;
per §4.5 it "runs the fused trace with the `Simple` unit", i.e. it behaves as
`execute_simple_fused`. -/
def MatmulOptimization.execute_standard_fused (opt : MatmulOptimization)
    (env : ExecEnv) : Except (TraceError FusedMatmulError) TuneOutput :=
  opt.execute_simple_fused env

/-- `MatmulOptimization::execute_fallback`: run the fallback operation
(panicking when it is absent), then run the fallback trace through the
elementwise runner, unwrapping its result (a panic on framework error), and
merge the tune outputs. -/
def MatmulOptimization.execute_fallback (opt : MatmulOptimization)
    (env : ExecEnv) : List CoordEvent × PanicOr TuneOutput :=
  match opt.fallback with
  | none => ([], .panic "A fallback operation should be available")
  | some _ =>
    match env.elemwise_run opt.trace_fallback with
    | .error _ =>
      ([.ranFallbackOp, .ranFallbackTrace],
        .panic "called `Result::unwrap()` on an `Err` value")
    | .ok output_write =>
      ([.ranFallbackOp, .ranFallbackTrace],
        .ok (TuneOutput.merge .UnChecked output_write))

/-- `MatmulOptimization::execute`, non-autotune configuration: capture the
fallback operation for index 0, attempt `execute_standard_fused`, and on any
error run `execute_fallback`.  Returns the coordinator with its updated
fallback field; the return type has no error channel, matching the source's
`()` return. -/
def MatmulOptimization.execute (opt : MatmulOptimization) (env : ExecEnv) :
    List CoordEvent × PanicOr MatmulOptimization :=
  let opt' := { opt with fallback := some (env.fallback_of 0) }
  match opt'.execute_standard_fused env with
  | .ok _ => ([.capturedFallback 0, .ranFusedSimple], .ok opt')
  | .error _ =>
    let fb := opt'.execute_fallback env
    (.capturedFallback 0 :: .ranFusedSimple :: fb.1,
      match fb.2 with
      | .panic msg => .panic msg
      | .ok _ => .ok opt')

/-! ### Sample concrete inputs used to witness the theorems below -/

/-- A sample lhs operand reference. -/
def argLhs : Arg := .Input 0 .F32

/-- A sample rhs operand reference. -/
def argRhs : Arg := .Input 1 .F32

/-- A sample output operand reference with `f32` precision. -/
def argOut : Arg := .Output 0 .F32

/-- A sample fused-matmul unit with `f32` output precision. -/
def fmSample : FusedMatmul :=
  { lhs := argLhs, rhs := argRhs, out := argOut, op := ⟨0⟩,
    selector := .Simple }

/-- A sample fused-matmul unit whose output precision (`I32`) is
unsupported. -/
def fmBad : FusedMatmul := { fmSample with out := .Output 0 .I32 }

/-- Sample bindings: every operand a contiguous `4 x 4` matrix with unit line
size. -/
def argsContig : GlobalArgs :=
  { shape := fun _ => [4, 4], strides := fun _ => [4, 1],
    line_size := fun _ => 1 }

/-- Sample bindings whose lhs trailing-dimension pair is `[2 ^ 32 + 3, 5]`,
exercising the `as u32` truncation of the problem builder. -/
def argsBig : GlobalArgs :=
  { shape := fun a => match a with
      | .Input 0 _ => [2 ^ 32 + 3, 5]
      | _ => [5, 7]
    strides := fun _ => [5, 1]
    line_size := fun _ => 1 }

/-- A sample client with a known plane size and tf32 support. -/
def clientSample : Client := { defined_plane_size := some 32, tf32_supported := true }

/-- A sample client that cannot report its plane size. -/
def clientNoPlane : Client := { defined_plane_size := none, tf32_supported := false }

/-- A sample environment classifying every stride sequence as contiguous. -/
def envContig : LaunchEnv :=
  { matrix_batch_layout := fun _ => .Contiguous
    accelerated_requires_tensor_cores := true
    select_kernel := fun _ _ _ _ => .ok () }

/-- A sample environment classifying every stride sequence as highly
permuted. -/
def envHP : LaunchEnv := { envContig with matrix_batch_layout := fun _ => .HighlyPermuted }

/-- A sample block config with a virtual reference layout (output line size
1). -/
def configVirtual : FuseBlockConfig := { ref_layout := .Virtual 0 }

/-- A sample matmul problem value. -/
def pSample : MatmulProblem :=
  { m := 4, n := 4, k := 4, batches := ([], []), lhs_layout := .RowMajor,
    rhs_layout := .RowMajor, lhs_line_size := 1, rhs_line_size := 1,
    out_line_size := 1 }

/-- A sample coordinator built through `MatmulOptimization.new`. -/
def optSample : MatmulOptimization :=
  MatmulOptimization.new ⟨0⟩ ⟨1⟩ clientSample ⟨0⟩ 2 fmSample

/-- A sample coordinator whose fallback operation is set. -/
def optFb : MatmulOptimization := { optSample with fallback := some ⟨7⟩ }

/-- A sample execution environment whose fused trace run fails with a runner
error and whose elementwise run succeeds. -/
def envExecErr : ExecEnv :=
  { trace_run := fun _ _ => .error (.Runner .InvalidInput)
    elemwise_run := fun _ => .ok .UnChecked
    fallback_of := fun i => ⟨i⟩ }

/-- A sample execution environment where both framework runs succeed. -/
def envExecOk : ExecEnv :=
  { trace_run := fun _ _ => .ok .UnChecked
    elemwise_run := fun _ => .ok .UnChecked
    fallback_of := fun i => ⟨i⟩ }

/-! ### Claim theorems -/

/-- C2: whenever either operand's stride sequence classifies as
`HighlyPermuted` (it would require a copy), `matmul_fused` returns
`InvalidInput` with an empty step list: no problem is built, no plane-width
query is made, and no kernel dispatch is reached. -/
theorem highly_permuted_rejected (fm : FusedMatmul) (eg : ElemPrec)
    (client : Client) (inputs outputs : GlobalArgs) (config : FuseBlockConfig)
    (env : LaunchEnv)
    (h : env.matrix_batch_layout (inputs.strides fm.lhs) = .HighlyPermuted ∨
      env.matrix_batch_layout (inputs.strides fm.rhs) = .HighlyPermuted) :
    fm.matmul_fused eg client inputs outputs config env =
      ([], .ok (.error .InvalidInput)) := by
  rcases h with h | h <;> simp [FusedMatmul.matmul_fused, h, check_layout]

/-- Witness for C2 at a concrete highly permuted operand pair. -/
theorem highly_permuted_rejected_witness :
    envHP.matrix_batch_layout (argsContig.strides fmSample.lhs) =
      .HighlyPermuted ∧
    fmSample.matmul_fused .f32 clientSample argsContig argsContig
      configVirtual envHP = ([], .ok (.error .InvalidInput)) :=
  ⟨rfl, highly_permuted_rejected fmSample .f32 clientSample argsContig
    argsContig configVirtual envHP (Or.inl rfl)⟩

/-- C3: `run` branches on the output operand's precision tag: each of the four
supported tags dispatches to `matmul_fused` at the matching element precision
(so the fatal arm is not reached), and every other tag panics with
"Unsupported precision" without dispatching anything. -/
theorem run_precision_dispatch (fm : FusedMatmul) (client : Client)
    (inputs outputs : GlobalArgs) (env : LaunchEnv) :
    (∀ eg, precision_eg fm.out.precision = some eg →
      ∀ config cs, fm.run client inputs outputs (config :: cs) env =
        fm.matmul_fused eg client inputs outputs config env) ∧
    (precision_eg fm.out.precision = none →
      ∀ configs, fm.run client inputs outputs configs env =
        ([], .panic "Unsupported precision")) := by
  constructor
  · intro eg h config cs
    simp [FusedMatmul.run, h]
  · intro h configs
    simp [FusedMatmul.run, h]

/-- Witness for C3: a supported (`F32`) and an unsupported (`I32`) output
precision. -/
theorem run_precision_dispatch_witness :
    fmSample.run clientSample argsContig argsContig [configVirtual]
      envContig =
      fmSample.matmul_fused .f32 clientSample argsContig argsContig
        configVirtual envContig ∧
    fmBad.run clientSample argsContig argsContig [configVirtual] envContig =
      ([], .panic "Unsupported precision") :=
  ⟨(run_precision_dispatch fmSample clientSample argsContig argsContig
      envContig).1 .f32 rfl configVirtual [],
    (run_precision_dispatch fmBad clientSample argsContig argsContig
      envContig).2 rfl [configVirtual]⟩

/-- C10: `run` reads only the first element of the config slice — its result
is unchanged by anything after the head — and with a supported output
precision an empty config slice panics out of bounds instead of returning a
typed error. -/
theorem run_reads_only_first_config (fm : FusedMatmul) (client : Client)
    (inputs outputs : GlobalArgs) (env : LaunchEnv) :
    (∀ config cs cs', fm.run client inputs outputs (config :: cs) env =
      fm.run client inputs outputs (config :: cs') env) ∧
    (∀ eg, precision_eg fm.out.precision = some eg →
      fm.run client inputs outputs [] env =
        ([], .panic "index out of bounds")) := by
  constructor
  · intro config cs cs'
    cases h : precision_eg fm.out.precision <;> simp [FusedMatmul.run, h]
  · intro eg h
    simp [FusedMatmul.run, h]

/-- Witness for C10: the tail of the config slice is irrelevant, and the empty
slice panics. -/
theorem run_reads_only_first_config_witness :
    fmSample.run clientSample argsContig argsContig
        [configVirtual, configVirtual] envContig =
      fmSample.run clientSample argsContig argsContig [configVirtual]
        envContig ∧
    fmSample.run clientSample argsContig argsContig [] envContig =
      ([], .panic "index out of bounds") :=
  ⟨(run_reads_only_first_config fmSample clientSample argsContig argsContig
      envContig).1 configVirtual [configVirtual] [],
    (run_reads_only_first_config fmSample clientSample argsContig argsContig
      envContig).2 .f32 rfl⟩

/-- C6: when the algorithm's tile family requires tensor cores, the element
type is `f32`, and the client supports tf32, `matmul_launch_kernel`
re-dispatches with the mixed `(f32, tf32, f32, f32)` spec, whose input/output
element type is the original `f32`; in every other case it dispatches with the
exact declared precision. -/
theorem tf32_upgrade_dispatch (rtc : Bool) (eg : ElemPrec) (alg : AlgKind)
    (client : Client) (env : LaunchEnv) (problem : MatmulProblem)
    (plane_size : Nat) :
    (rtc = true → eg.esIsF32 = true → client.tf32_supported = true →
      matmul_launch_kernel rtc eg alg client env problem plane_size =
        env.select_kernel .f32_tf32_f32_f32 alg problem plane_size ∧
      KernelPrecision.ioElem .f32_tf32_f32_f32 = eg) ∧
    ((rtc && eg.esIsF32 && client.tf32_supported) = false →
      matmul_launch_kernel rtc eg alg client env problem plane_size =
        env.select_kernel (.exact eg) alg problem plane_size) := by
  constructor
  · intro h1 h2 h3
    cases eg <;> simp_all [matmul_launch_kernel, ElemPrec.esIsF32,
      KernelPrecision.ioElem]
  · intro h
    simp [matmul_launch_kernel, h]

/-- Witness for C6: the upgrade case at `f32` with tf32 support, and a
non-upgrade case at `f16`. -/
theorem tf32_upgrade_dispatch_witness :
    (matmul_launch_kernel true .f32 .SimpleAccelerated clientSample envContig
        pSample 32 =
      envContig.select_kernel .f32_tf32_f32_f32 .SimpleAccelerated pSample
        32 ∧
      KernelPrecision.ioElem .f32_tf32_f32_f32 = .f32) ∧
    matmul_launch_kernel true .f16 .SimpleAccelerated clientSample envContig
        pSample 32 =
      envContig.select_kernel (.exact .f16) .SimpleAccelerated pSample 32 :=
  ⟨(tf32_upgrade_dispatch true .f32 .SimpleAccelerated clientSample envContig
      pSample 32).1 rfl rfl rfl,
    (tf32_upgrade_dispatch true .f16 .SimpleAccelerated clientSample envContig
      pSample 32).2 rfl⟩

/-- C9: `to_state` followed by `from_state` on a fresh device handle yields a
coordinator whose traces, both unit variants (selector tags included) and
fused-op count equal the original's, whose client and device are rebound from
the given device handle, and whose fallback operation is unset. -/
theorem to_state_from_state_roundtrip (opt : MatmulOptimization)
    (clientOf : Device → Client) (device : Device) :
    (MatmulOptimization.from_state clientOf device opt.to_state).trace =
      opt.trace ∧
    (MatmulOptimization.from_state clientOf device
      opt.to_state).trace_fallback = opt.trace_fallback ∧
    (MatmulOptimization.from_state clientOf device opt.to_state).matmul_simple
      = opt.matmul_simple ∧
    (MatmulOptimization.from_state clientOf device
      opt.to_state).matmul_double_buffering = opt.matmul_double_buffering ∧
    (MatmulOptimization.from_state clientOf device
      opt.to_state).matmul_simple.selector = opt.matmul_simple.selector ∧
    (MatmulOptimization.from_state clientOf device
        opt.to_state).matmul_double_buffering.selector =
      opt.matmul_double_buffering.selector ∧
    (MatmulOptimization.from_state clientOf device opt.to_state).len =
      opt.len ∧
    (MatmulOptimization.from_state clientOf device opt.to_state).client =
      clientOf device ∧
    (MatmulOptimization.from_state clientOf device opt.to_state).device =
      device ∧
    (MatmulOptimization.from_state clientOf device opt.to_state).fallback =
      none :=
  ⟨rfl, rfl, rfl, rfl, rfl, rfl, rfl, rfl, rfl, rfl⟩

/-- C8: `execute_fallback` runs the supplied fallback operation first, then
the fallback trace through the elementwise runner, and returns a tune-output
record (its return type has no error channel); when the fallback operation is
absent it panics instead of returning a recoverable error. -/
theorem execute_fallback_spec (opt : MatmulOptimization) (env : ExecEnv) :
    (opt.fallback = none →
      opt.execute_fallback env =
        ([], .panic "A fallback operation should be available")) ∧
    (∀ f, opt.fallback = some f →
      (opt.execute_fallback env).1 =
        [.ranFallbackOp, .ranFallbackTrace] ∧
      ∀ out, env.elemwise_run opt.trace_fallback = .ok out →
        (opt.execute_fallback env).2 =
          .ok (TuneOutput.merge .UnChecked out)) := by
  refine ⟨fun h => ?_, fun f h => ⟨?_, fun out hout => ?_⟩⟩
  · simp [MatmulOptimization.execute_fallback, h]
  · cases he : env.elemwise_run opt.trace_fallback <;>
      simp [MatmulOptimization.execute_fallback, h, he]
  · simp [MatmulOptimization.execute_fallback, h, hout]

/-- Witness for C8: the panic on an unset fallback operation, and the
op-then-trace order plus merged output when it is set. -/
theorem execute_fallback_spec_witness :
    optSample.execute_fallback envExecOk =
      ([], .panic "A fallback operation should be available") ∧
    (optFb.execute_fallback envExecOk).1 =
      [.ranFallbackOp, .ranFallbackTrace] ∧
    (optFb.execute_fallback envExecOk).2 =
      .ok (TuneOutput.merge .UnChecked .UnChecked) :=
  ⟨(execute_fallback_spec optSample envExecOk).1 rfl,
    ((execute_fallback_spec optFb envExecOk).2 ⟨7⟩ rfl).1,
    ((execute_fallback_spec optFb envExecOk).2 ⟨7⟩ rfl).2 .UnChecked rfl⟩

/-- C1: in the non-autotuned `execute`, the fallback operation is captured for
index 0 first, unconditionally; then the fused trace is run with the `Simple`
unit; a successful fused run ends the call, any error triggers the fallback
executor; and `execute` has no error channel — with the fused run failing and
the fallback succeeding it still returns normally. -/
theorem execute_captures_then_falls_back (opt : MatmulOptimization)
    (env : ExecEnv) :
    (opt.execute env).1.head? = some (.capturedFallback 0) ∧
    ((env.trace_run opt.trace opt.matmul_simple).isOk = true →
      opt.execute env = ([.capturedFallback 0, .ranFusedSimple],
        .ok { opt with fallback := some (env.fallback_of 0) })) ∧
    (∀ e, env.trace_run opt.trace opt.matmul_simple = .error e →
      CoordEvent.ranFallbackOp ∈ (opt.execute env).1) ∧
    (∀ e out, env.trace_run opt.trace opt.matmul_simple = .error e →
      env.elemwise_run opt.trace_fallback = .ok out →
      (opt.execute env).2 =
        .ok { opt with fallback := some (env.fallback_of 0) }) := by
  refine ⟨?_, fun hok => ?_, fun e he => ?_, fun e out he hout => ?_⟩
  · cases hr : env.trace_run opt.trace opt.matmul_simple <;>
      simp [MatmulOptimization.execute,
        MatmulOptimization.execute_standard_fused,
        MatmulOptimization.execute_simple_fused, hr]
  · cases hr : env.trace_run opt.trace opt.matmul_simple with
    | error e => rw [hr] at hok; simp [Except.isOk, Except.toBool] at hok
    | ok out =>
      simp [MatmulOptimization.execute,
        MatmulOptimization.execute_standard_fused,
        MatmulOptimization.execute_simple_fused, hr]
  · cases he2 : env.elemwise_run opt.trace_fallback <;>
      simp [MatmulOptimization.execute,
        MatmulOptimization.execute_standard_fused,
        MatmulOptimization.execute_simple_fused,
        MatmulOptimization.execute_fallback, he, he2]
  · simp [MatmulOptimization.execute,
      MatmulOptimization.execute_standard_fused,
      MatmulOptimization.execute_simple_fused,
      MatmulOptimization.execute_fallback, he, hout]

/-- Witness for C1: a concrete coordinator under a succeeding and a failing
fused run. -/
theorem execute_captures_then_falls_back_witness :
    (optSample.execute envExecOk).1.head? = some (.capturedFallback 0) ∧
    optSample.execute envExecOk = ([.capturedFallback 0, .ranFusedSimple],
      .ok { optSample with fallback := some (envExecOk.fallback_of 0) }) ∧
    CoordEvent.ranFallbackOp ∈ (optSample.execute envExecErr).1 ∧
    (optSample.execute envExecErr).2 =
      .ok { optSample with fallback := some (envExecErr.fallback_of 0) } :=
  ⟨(execute_captures_then_falls_back optSample envExecOk).1,
    (execute_captures_then_falls_back optSample envExecOk).2.1 rfl,
    (execute_captures_then_falls_back optSample envExecErr).2.2.1
      (.Runner .InvalidInput) rfl,
    (execute_captures_then_falls_back optSample envExecErr).2.2.2
      (.Runner .InvalidInput) .UnChecked rfl rfl⟩

/-- For a classification that is not `HighlyPermuted`, `check_layout`
requires no copy and reports the transposed flag. -/
theorem check_layout_of_ne_hp (l : MatrixBatchLayout)
    (h : l ≠ .HighlyPermuted) :
    check_layout l = (false, l.transposedFlag) := by
  cases l <;> simp [check_layout, MatrixBatchLayout.transposedFlag] at h ⊢

/-- C5: when the resolved output line size is 1 while an input line size
exceeds 1 (and the earlier layout check and shape indexing went through),
`matmul_fused` fails with `InvalidInput` and performs no step: in particular
no `MatmulProblem` is constructed. -/
theorem unit_out_line_rejected (fm : FusedMatmul) (eg : ElemPrec)
    (client : Client) (inputs outputs : GlobalArgs) (config : FuseBlockConfig)
    (env : LaunchEnv)
    (h1 : env.matrix_batch_layout (inputs.strides fm.lhs) ≠ .HighlyPermuted)
    (h2 : env.matrix_batch_layout (inputs.strides fm.rhs) ≠ .HighlyPermuted)
    (h3 : 2 ≤ (inputs.shape fm.lhs).length)
    (h4 : (inputs.shape fm.lhs).length ≤ (inputs.shape fm.rhs).length)
    (h5 : resolve_out_line_size inputs outputs config.ref_layout = .ok 1)
    (h6 : 1 < inputs.line_size fm.lhs ∨ 1 < inputs.line_size fm.rhs) :
    fm.matmul_fused eg client inputs outputs config env =
      ([], .ok (.error .InvalidInput)) := by
  simp [FusedMatmul.matmul_fused, check_layout_of_ne_hp _ h1,
    check_layout_of_ne_hp _ h2, h5, h6, Nat.not_lt.mpr h3, Nat.not_lt.mpr h4]

/-- Witness for C5: a unit output line with a 4-wide lhs line. -/
theorem unit_out_line_rejected_witness :
    fmSample.matmul_fused .f32 clientSample
      { argsContig with line_size := fun a => match a with
          | .Input 0 _ => 4
          | _ => 1 }
      argsContig configVirtual envContig = ([], .ok (.error .InvalidInput)) :=
  unit_out_line_rejected fmSample .f32 clientSample
    { argsContig with line_size := fun a => match a with
        | .Input 0 _ => 4
        | _ => 1 }
    argsContig configVirtual envContig (by decide) (by decide) (by decide)
    (by decide) rfl (by decide)

/-- C7: when the client cannot report a plane size (and layout and line-size
validation passed), `matmul_fused` fails with the recoverable
`Unavailable(PlaneDimUnknown)` error and no kernel dispatch step occurs; and
any fused-run error makes the non-autotuned `execute` run the fallback
operation. -/
theorem plane_dim_unknown_fallback (fm : FusedMatmul) (eg : ElemPrec)
    (client : Client) (inputs outputs : GlobalArgs) (config : FuseBlockConfig)
    (env : LaunchEnv) (ols : Nat)
    (h1 : env.matrix_batch_layout (inputs.strides fm.lhs) ≠ .HighlyPermuted)
    (h2 : env.matrix_batch_layout (inputs.strides fm.rhs) ≠ .HighlyPermuted)
    (h3 : 2 ≤ (inputs.shape fm.lhs).length)
    (h4 : (inputs.shape fm.lhs).length ≤ (inputs.shape fm.rhs).length)
    (h5 : resolve_out_line_size inputs outputs config.ref_layout = .ok ols)
    (h6 : ¬(ols = 1 ∧ (1 < inputs.line_size fm.lhs ∨
      1 < inputs.line_size fm.rhs)))
    (h7 : client.defined_plane_size = none) :
    (fm.matmul_fused eg client inputs outputs config env).2 =
      .ok (.error (.LaunchError (.Unavailable .PlaneDimUnknown))) ∧
    (∀ alg eg' p ps, Event.dispatched alg eg' p ps ∉
      (fm.matmul_fused eg client inputs outputs config env).1) ∧
    (∀ (opt : MatmulOptimization) (eenv : ExecEnv)
      (e : TraceError FusedMatmulError),
      eenv.trace_run opt.trace opt.matmul_simple = .error e →
      CoordEvent.ranFallbackOp ∈ (opt.execute eenv).1) := by
  refine ⟨?_, fun alg eg' p ps => ?_, fun opt eenv e he => ?_⟩
  · simp [FusedMatmul.matmul_fused, check_layout_of_ne_hp _ h1,
      check_layout_of_ne_hp _ h2, h5, h6, h7, Nat.not_lt.mpr h3,
      Nat.not_lt.mpr h4]
  · simp [FusedMatmul.matmul_fused, check_layout_of_ne_hp _ h1,
      check_layout_of_ne_hp _ h2, h5, h6, h7, Nat.not_lt.mpr h3,
      Nat.not_lt.mpr h4]
  · cases he2 : eenv.elemwise_run opt.trace_fallback <;>
      simp [MatmulOptimization.execute,
        MatmulOptimization.execute_standard_fused,
        MatmulOptimization.execute_simple_fused,
        MatmulOptimization.execute_fallback, he, he2]

/-- Witness for C7: a client without a plane size, plus a coordinator whose
fused run fails. -/
theorem plane_dim_unknown_fallback_witness :
    (fmSample.matmul_fused .f32 clientNoPlane argsContig argsContig
      configVirtual envContig).2 =
      .ok (.error (.LaunchError (.Unavailable .PlaneDimUnknown))) ∧
    Event.dispatched .SimpleAccelerated .f32 pSample 32 ∉
      (fmSample.matmul_fused .f32 clientNoPlane argsContig argsContig
        configVirtual envContig).1 ∧
    CoordEvent.ranFallbackOp ∈ (optSample.execute envExecErr).1 :=
  ⟨(plane_dim_unknown_fallback fmSample .f32 clientNoPlane argsContig
      argsContig configVirtual envContig 1 (by decide) (by decide) (by decide)
      (by decide) rfl (by decide) rfl).1,
    (plane_dim_unknown_fallback fmSample .f32 clientNoPlane argsContig
      argsContig configVirtual envContig 1 (by decide) (by decide) (by decide)
      (by decide) rfl (by decide) rfl).2.1 .SimpleAccelerated .f32 pSample 32,
    (plane_dim_unknown_fallback fmSample .f32 clientNoPlane argsContig
      argsContig configVirtual envContig 1 (by decide) (by decide) (by decide)
      (by decide) rfl (by decide) rfl).2.2 optSample envExecErr
      (.Runner .InvalidInput) rfl⟩

/-- Counterexample to C4 as stated: with `lhs_shape = [2 ^ 32 + 3, 5]` the
constructed problem records `m = 3`, not `m = lhs_shape[rank - 2] = 2 ^ 32 +
3`, because the source casts each dimension through `u32`. -/
theorem problem_builder_truncation_counterexample :
    (fmSample.matmul_fused .f32 clientSample argsBig argsBig configVirtual
      envContig).1.head? =
      some (.problemBuilt
        { m := 3, n := 7, k := 5, batches := ([], []),
          lhs_layout := .RowMajor, rhs_layout := .RowMajor,
          lhs_line_size := 1, rhs_line_size := 1, out_line_size := 1 }) ∧
    (argsBig.shape fmSample.lhs).getD
      ((argsBig.shape fmSample.lhs).length - 2) 0 = 2 ^ 32 + 3 ∧
    (3 : Nat) ≠ 2 ^ 32 + 3 := by
  refine ⟨?_, by norm_num [argsBig, fmSample, argLhs], by norm_num⟩
  decide

/-- C4 (amended): for every operand pair of rank at least 2 that passes layout
and line-size validation, the constructed problem has
`m = lhs_shape[rank-2] mod 2 ^ 32`, `k = lhs_shape[rank-1] mod 2 ^ 32`,
`n = rhs_shape[rank-1] mod 2 ^ 32` (the source casts the dimensions through
`u32`), batches equal to the leading dimensions before the trailing two kept
separately per operand, and each operand's layout `ColMajor` exactly when its
classification is `MildlyPermuted` with `transposed = true`, `RowMajor`
otherwise. -/
theorem problem_builder_fields (fm : FusedMatmul) (eg : ElemPrec)
    (client : Client) (inputs outputs : GlobalArgs) (config : FuseBlockConfig)
    (env : LaunchEnv) (ols : Nat)
    (h1 : env.matrix_batch_layout (inputs.strides fm.lhs) ≠ .HighlyPermuted)
    (h2 : env.matrix_batch_layout (inputs.strides fm.rhs) ≠ .HighlyPermuted)
    (h3 : 2 ≤ (inputs.shape fm.lhs).length)
    (h4 : (inputs.shape fm.lhs).length ≤ (inputs.shape fm.rhs).length)
    (h5 : resolve_out_line_size inputs outputs config.ref_layout = .ok ols)
    (h6 : ¬(ols = 1 ∧ (1 < inputs.line_size fm.lhs ∨
      1 < inputs.line_size fm.rhs))) :
    (fm.matmul_fused eg client inputs outputs config env).1.head? =
      some (.problemBuilt
        { m := (inputs.shape fm.lhs).getD
            ((inputs.shape fm.lhs).length - 2) 0 % 2 ^ 32
          n := (inputs.shape fm.rhs).getD
            ((inputs.shape fm.lhs).length - 1) 0 % 2 ^ 32
          k := (inputs.shape fm.lhs).getD
            ((inputs.shape fm.lhs).length - 1) 0 % 2 ^ 32
          batches :=
            ((inputs.shape fm.lhs).take ((inputs.shape fm.lhs).length - 2),
              (inputs.shape fm.rhs).take ((inputs.shape fm.rhs).length - 2))
          lhs_layout :=
            if (env.matrix_batch_layout
                (inputs.strides fm.lhs)).transposedFlag then
              .ColMajor
            else .RowMajor
          rhs_layout :=
            if (env.matrix_batch_layout
                (inputs.strides fm.rhs)).transposedFlag then
              .ColMajor
            else .RowMajor
          lhs_line_size := inputs.line_size fm.lhs
          rhs_line_size := inputs.line_size fm.rhs
          out_line_size := ols }) := by
  cases hp : client.defined_plane_size <;>
    simp [FusedMatmul.matmul_fused, check_layout_of_ne_hp _ h1,
      check_layout_of_ne_hp _ h2, h5, h6, hp, Nat.not_lt.mpr h3,
      Nat.not_lt.mpr h4]

/-- Witness for C4 (amended): the truncating input of the counterexample
satisfies the amended statement with `m = 3`. -/
theorem problem_builder_fields_witness :
    (fmSample.matmul_fused .f32 clientSample argsBig argsBig configVirtual
      envContig).1.head? =
      some (.problemBuilt
        { m := (argsBig.shape fmSample.lhs).getD
            ((argsBig.shape fmSample.lhs).length - 2) 0 % 2 ^ 32
          n := (argsBig.shape fmSample.rhs).getD
            ((argsBig.shape fmSample.lhs).length - 1) 0 % 2 ^ 32
          k := (argsBig.shape fmSample.lhs).getD
            ((argsBig.shape fmSample.lhs).length - 1) 0 % 2 ^ 32
          batches :=
            ((argsBig.shape fmSample.lhs).take
              ((argsBig.shape fmSample.lhs).length - 2),
              (argsBig.shape fmSample.rhs).take
                ((argsBig.shape fmSample.rhs).length - 2))
          lhs_layout :=
            if (envContig.matrix_batch_layout
                (argsBig.strides fmSample.lhs)).transposedFlag then
              .ColMajor
            else .RowMajor
          rhs_layout :=
            if (envContig.matrix_batch_layout
                (argsBig.strides fmSample.rhs)).transposedFlag then
              .ColMajor
            else .RowMajor
          lhs_line_size := argsBig.line_size fmSample.lhs
          rhs_line_size := argsBig.line_size fmSample.rhs
          out_line_size := 1 }) :=
  problem_builder_fields fmSample .f32 clientSample argsBig argsBig
    configVirtual envContig 1 (by decide) (by decide) (by decide) (by decide)
    rfl (by decide)

end BurnMatmulFusion
